import Mathlib

/-!
# Verification of the MyPath profile backend

Shallow embedding of the profile-merge and AI-orchestration core of
`backend/server.js` (second, current revision) and
`backend/utils/profileUtils.js`.

Conventions of the embedding:
* JS arrays become `List`, JS objects with fixed fields become structures,
  JS objects used as string-keyed maps become association lists
  (`List (String × _)`) in insertion/iteration order.
* The external AI collaborator (`callDifyWorkflow` in `difyService.js`,
  not part of the sources) is modelled per the spec contract (§6):
  a single call that either errors or yields an outputs mapping; every
  operation that consumes it is parameterised by that outcome.
* `JSON.parse` of an AI output string is modelled by its result:
  `none` when the parse throws, `some j` when it yields the JSON value `j`.
* Reason entries attached to colleges are opaque to the server
  (never inspected, only stored and returned); they are modelled as strings.
-/

namespace MyPath

/-- One catalog question (`ALL_QUESTIONS` entries in `profileUtils.js`). -/
structure Question where
  id : String
  question : String
  options : List String
deriving Repr, DecidableEq

/-- The static question catalog `ALL_QUESTIONS`, transcribed verbatim from
`backend/utils/profileUtils.js`, keyed by category. -/
def ALL_QUESTIONS : List (String × List Question) :=
  [ ("collegeMatch",
      [ ⟨"q1", "What type of college are you looking for?",
          ["Public", "Private", "Community College", "Online"]⟩,
        ⟨"q2", "What size of college are you looking for?",
          ["Small (under 5,000 students)", "Medium (5,000 - 15,000 students)",
           "Large (over 15,000 students)"]⟩,
        ⟨"q3", "What is your preferred location?",
          ["Urban", "Suburban", "Rural"]⟩,
        ⟨"q4", "What is your preferred region?",
          ["Northeast", "Southeast", "Midwest", "West"]⟩ ]),
    ("academics",
      [ ⟨"a1", "What is your GPA (on a 4.0 scale)?",
          ["Below 3.0", "3.0 - 3.4", "3.5 - 3.7", "3.8 - 4.0"]⟩,
        ⟨"a2", "Have you taken any AP, IB, or Honors courses?",
          ["Yes, many", "Yes, a few", "No"]⟩,
        ⟨"a3", "What is your intended major or field of study?",
          ["STEM (Science, Tech, Engineering, Math)", "Humanities", "Arts",
           "Business", "Undecided"]⟩ ]),
    ("interests",
      [ ⟨"i1", "Which extracurricular activities are you involved in?",
          ["Sports", "Music/Arts", "Volunteering", "Debate/Model UN", "STEM Club"]⟩,
        ⟨"i2", "What do you enjoy doing in your free time?",
          ["Reading/Writing", "Gaming", "Coding/Building things",
           "Spending time outdoors", "Socializing"]⟩,
        ⟨"i3", "What kind of campus environment appeals to you?",
          ["A very social, spirited campus", "A quiet, studious atmosphere",
           "A politically active campus", "A diverse, multicultural environment"]⟩ ]),
    ("financial",
      [ ⟨"f1", "Do you intend to apply for financial aid?",
          ["Yes", "No", "Unsure"]⟩,
        ⟨"f2", "What is your estimated annual household income?",
          ["Less than $50,000", "$50,000 - $100,000", "$100,000 - $150,000",
           "More than $150,000"]⟩,
        ⟨"f3", "Are you interested in work-study programs?",
          ["Yes", "No", "Maybe"]⟩ ]) ]

/-- One formatted questionnaire record as stored on a profile
(shape produced by the PUT `/api/profile/:userId` merge). -/
structure Answer where
  id : String
  category : String
  question : String
  answer : String
deriving Repr, DecidableEq

/-- The `discovered` sub-document of a profile. -/
structure Discovered where
  interests : List String
  strengths : List String
  goals : List String
deriving Repr, DecidableEq

/-- Reason entries are opaque to the server (stored and returned, never
inspected), so they are modelled as strings. -/
abbrev Reason := String

/-- One college record inside a `collegeList` bucket. -/
structure College where
  school : String
  category : String
  reasons : List Reason
deriving Repr, DecidableEq

/-- The three-bucket `collegeList` sub-document (the `lastGenerated`
timestamp is real time and is not modelled). -/
structure CollegeList where
  reach : List College
  target : List College
  likely : List College
deriving Repr, DecidableEq

/-- The profile document fields the verified core reads and writes.
`collegeList` is optional because the why/strategies endpoints test
`profile.collegeList` for absence; `profileSummary` is optional because
the JS code can store `undefined` there. Credentials, timestamps and the
tracker are plumbing not touched by the claims. -/
structure Profile where
  userId : String
  name : String
  questionnaire : List Answer
  discovered : Discovered
  collegeList : Option CollegeList
  profileSummary : Option String
deriving Repr, DecidableEq

/-! ## JS string trimming

`String.prototype.trim` removes leading and trailing whitespace.
Modelled on the character list: first drop trailing whitespace
(via reverse), then leading whitespace. -/

/-- Character-list model of JS `trim`. -/
def trimChars (l : List Char) : List Char :=
  ((l.reverse.dropWhile Char.isWhitespace).reverse).dropWhile Char.isWhitespace

/-- Model of JS `String.prototype.trim`. -/
def jsTrim (s : String) : String :=
  ⟨trimChars s.data⟩

/-! ## Summary generation (`backend/utils/profileUtils.js`) -/

/-- The deterministic plain-text rendering that `generateProfileSummary`
builds into `profileString` before calling the AI collaborator, and
returns as the fallback.  Faithful to the source: a conditional `+=` is
an append of the conditional text (empty when the guard fails). -/
def renderProfile (p : Profile) : String :=
  jsTrim ("--- Student Profile ---\n"
    ++ (if p.questionnaire.isEmpty then ""
        else "Questionnaire Answers:\n"
          ++ String.join (p.questionnaire.map
              (fun item => "- " ++ item.question ++ ": " ++ item.answer ++ "\n")))
    ++ (if p.discovered.interests.isEmpty then ""
        else "Discovered Interests: "
          ++ String.intercalate ", " p.discovered.interests ++ "\n")
    ++ (if p.discovered.strengths.isEmpty then ""
        else "Discovered Strengths: "
          ++ String.intercalate ", " p.discovered.strengths ++ "\n"))

/-- Modelled from the spec: the outputs mapping of one successful
`callDifyWorkflow` round trip (`difyService.js` is not among the sources;
§6 gives its contract as `{outputs: mapping<string,string>} | error`). -/
abbrev DifyOutputs := List (String × String)

/-- Association-list lookup, modelling a JS property read on an object
used as a map (`undefined`, i.e. `none`, when the key is absent). -/
def difyGet (outputs : DifyOutputs) (k : String) : Option String :=
  (outputs.find? (fun kv => kv.1 = k)).map (fun kv => kv.2)

/-- Model of `generateProfileSummary`, parameterised by the AI-collaborator outcome.
On a thrown call the `catch` returns the deterministic rendering; on
success it returns `aiData.data.outputs.summary`, which in JS is
`undefined` (here `none`) when the `summary` key is absent. -/
def generateProfileSummary (p : Profile) (ai : Except Unit DifyOutputs) :
    Option String :=
  let profileString := renderProfile p
  match ai with
  | .error _ => some profileString
  | .ok outputs => difyGet outputs "summary"

/-! ## Questionnaire merge (PUT `/api/profile/:userId`) -/

/-- Catalog lookup `ALL_QUESTIONS[category]` (`undefined` = `none`). -/
def catalogLookup (category : String) : Option (List Question) :=
  (ALL_QUESTIONS.find? (fun kv => kv.1 = category)).map (fun kv => kv.2)

/-- The `formattedAnswers` construction: one record per
`(questionId, answerText)` entry, question text looked up in the
catalog entry of the category, `"Unknown Question"` when the id is unknown.
`answers` models `Object.entries(answers)` in iteration order. -/
def formatAnswers (category : String) (qs : List Question)
    (answers : List (String × String)) : List Answer :=
  answers.map (fun qa =>
    { id := qa.1
      category := category
      question := match qs.find? (fun q => q.id = qa.1) with
        | some q => q.question
        | none => "Unknown Question"
      answer := qa.2 })

/-- The questionnaire-merge step of the PUT route for one
`(category, answers)` payload: when the category is in the catalog,
drop every existing record of that category and append the freshly
formatted records; otherwise (`if (questionsForCategory)` fails)
leave the questionnaire untouched. -/
def mergeQuestionnaire (questionnaire : List Answer) (category : String)
    (answers : List (String × String)) : List Answer :=
  match catalogLookup category with
  | none => questionnaire
  | some qs =>
      questionnaire.filter (fun q => q.category ≠ category)
        ++ formatAnswers category qs answers

/-- The body of a PUT `/api/profile/:userId` request, restricted to the
parts the core reads (tracker updates are plumbing orthogonal to the
questionnaire merge).  `questionnaire`, when present, is the
`updates.questionnaire` object of the request as an association list in key order:
the route reads only `Object.keys(updates.questionnaire)[0]`. -/
structure ProfileUpdates where
  questionnaire : Option (List (String × List (String × String)))
deriving Repr

/-- Outcome of one HTTP handler: an error status, or a success value. -/
abbrev HandlerResult (α : Type) := Except Nat α

instance {ε α : Type} [DecidableEq ε] [DecidableEq α] :
    DecidableEq (Except ε α) := fun a b =>
  match a, b with
  | .error e, .error e' =>
      if h : e = e' then .isTrue (by rw [h]) else .isFalse (by simp [h])
  | .error _, .ok _ => .isFalse (by simp)
  | .ok _, .error _ => .isFalse (by simp)
  | .ok v, .ok v' =>
      if h : v = v' then .isTrue (by rw [h]) else .isFalse (by simp [h])

/-- The PUT `/api/profile/:userId` handler: 404 when the profile is
absent; otherwise merge the first category of the questionnaire payload (when
a payload is present and non-empty), regenerate the summary, and answer
200 with the updated profile.  `ai` is the AI-collaborator outcome used
by the summary regeneration. -/
def putProfile (profile? : Option Profile) (updates : ProfileUpdates)
    (ai : Except Unit DifyOutputs) : HandlerResult Profile :=
  match profile? with
  | none => .error 404
  | some profile =>
      let profile :=
        match updates.questionnaire with
        | none => profile
        | some payload =>
            match payload.head? with
            | none => profile
            | some cat =>
                { profile with
                    questionnaire :=
                      mergeQuestionnaire profile.questionnaire cat.1 cat.2 }
      let profile :=
        { profile with profileSummary := generateProfileSummary profile ai }
      .ok profile

/-! ## College-list generation (POST `/api/colleges/generate`) -/

/-- One school record as parsed from the AI `CollegeList` output
(before the server attaches an empty `reasons` list). -/
structure RawCollege where
  school : String
  category : String
deriving Repr, DecidableEq

/-- The categorisation block of POST `/api/colleges/generate`: attach
`reasons: []` to every parsed record, then bucket by exact tag match
(`"Reach"` or `"reach"`; `"Target"` or `"target"`; `"Safety"` or `"likely"`). -/
def categorize (allColleges : List RawCollege) : CollegeList :=
  let allCollegesWithReasons : List College :=
    allColleges.map (fun c => ⟨c.school, c.category, []⟩)
  { reach := allCollegesWithReasons.filter
      (fun c => c.category = "Reach" ∨ c.category = "reach")
    target := allCollegesWithReasons.filter
      (fun c => c.category = "Target" ∨ c.category = "target")
    likely := allCollegesWithReasons.filter
      (fun c => c.category = "Safety" ∨ c.category = "likely") }

/-- JS `toLowerCase` for the ASCII tags involved here (character-wise
lowercasing). -/
def lowerTag (s : String) : String := ⟨s.data.map Char.toLower⟩

/-- Written from the words of the spec, for comparison with `categorize`:
"Normalize category tags case-insensitively into exactly three buckets:
`reach`, `target`, `likely` (a `"Safety"` tag also maps to `likely`);
unknown tags are dropped silently." -/
def categorize_specText (allColleges : List RawCollege) : CollegeList :=
  let allCollegesWithReasons : List College :=
    allColleges.map (fun c => ⟨c.school, c.category, []⟩)
  { reach := allCollegesWithReasons.filter (fun c => lowerTag c.category = "reach")
    target := allCollegesWithReasons.filter (fun c => lowerTag c.category = "target")
    likely := allCollegesWithReasons.filter
      (fun c => lowerTag c.category = "safety" ∨ lowerTag c.category = "likely") }

/-! ## Why-reasons endpoint (POST `/api/colleges/why`) -/

/-- The search loop of the why endpoint: scan the buckets in the fixed
order `reach`, `target`, `likely`; within a bucket, `find` takes the
first record whose `school` equals `schoolName`.  Returns the bucket
name (the `categoryPath` tail) together with the record. -/
def findCollege (cl : CollegeList) (schoolName : String) :
    Option (String × College) :=
  match cl.reach.find? (fun c => c.school = schoolName) with
  | some c => some ("reach", c)
  | none =>
    match cl.target.find? (fun c => c.school = schoolName) with
    | some c => some ("target", c)
    | none =>
      match cl.likely.find? (fun c => c.school = schoolName) with
      | some c => some ("likely", c)
      | none => none

/-- The persistence effect the why endpoint requests from storage:
nothing, or the targeted `Profile.updateOne` that sets the `reasons`
field of the first record with the given school name in the given
bucket (the Mongo positional update operator). -/
inductive WhyPersist where
  | nothing
  | targetedSet (category : String) (school : String) (reasons : List Reason)
deriving Repr, DecidableEq

/-- Observable outcome of one POST `/api/colleges/why` call:
the HTTP response, whether `generateWhyReasons` (the AI call) ran,
and the requested persistence effect. -/
structure WhyResult where
  response : HandlerResult (List Reason)
  aiCalled : Bool
  persist : WhyPersist
deriving Repr, DecidableEq

/-- POST `/api/colleges/why`, parameterised by the outcome `aiReasons`
that `generateWhyReasons` would produce if called (`.error` models a
thrown AI call or parse, caught by the route handler as a 500). -/
def whyEndpoint (profile? : Option Profile) (schoolName : String)
    (aiReasons : Except Unit (List Reason)) : WhyResult :=
  match profile? with
  | none => ⟨.error 404, false, .nothing⟩
  | some profile =>
      let found := profile.collegeList.bind (fun cl => findCollege cl schoolName)
      match found with
      | some catCollege =>
          if catCollege.2.reasons.isEmpty then
            match aiReasons with
            | .error _ => ⟨.error 500, true, .nothing⟩
            | .ok reasons =>
                ⟨.ok reasons, true, .targetedSet catCollege.1 schoolName reasons⟩
          else
            ⟨.ok catCollege.2.reasons, false, .nothing⟩
      | none =>
          match aiReasons with
          | .error _ => ⟨.error 500, true, .nothing⟩
          | .ok reasons => ⟨.ok reasons, true, .nothing⟩

/-- Semantics of the Mongo positional update used by the why endpoint:
replace the `reasons` field of the first record matching the school
name, leaving every other record untouched. -/
def setFirstReasons (l : List College) (school : String)
    (reasons : List Reason) : List College :=
  match l with
  | [] => []
  | c :: rest =>
      if c.school = school then { c with reasons := reasons } :: rest
      else c :: setFirstReasons rest school reasons

/-- Bucket selection by the bucket name embedded in a `categoryPath`. -/
def bucketOf (cl : CollegeList) (cat : String) : List College :=
  if cat = "reach" then cl.reach
  else if cat = "target" then cl.target
  else if cat = "likely" then cl.likely
  else []

/-- Replace one named bucket of a college list. -/
def setBucket (cl : CollegeList) (cat : String) (l : List College) : CollegeList :=
  if cat = "reach" then { cl with reach := l }
  else if cat = "target" then { cl with target := l }
  else if cat = "likely" then { cl with likely := l }
  else cl

/-- Apply a persistence effect to the stored profile. -/
def applyPersist (p : Profile) : WhyPersist → Profile
  | .nothing => p
  | .targetedSet cat school reasons =>
      match p.collegeList with
      | none => p
      | some cl =>
          let updated := setBucket cl cat
            (setFirstReasons (bucketOf cl cat) school reasons)
          { p with collegeList := some updated }

/-! ## Strategies endpoint (POST `/api/strategies/generate`) -/

/-- The parsed `applicationStrategies` shape. -/
structure Strategies where
  earlyDecision : List String
  earlyAction : List String
  strengthsToHighlight : List (String × String)
deriving Repr, DecidableEq

/-- The flattened college-list text the strategies endpoint sends to the
AI collaborator. -/
def collegeListString (cl : CollegeList) : String :=
  "Reach Schools:\n"
    ++ String.join (cl.reach.map (fun c => "- " ++ c.school ++ "\n"))
    ++ "\nTarget Schools:\n"
    ++ String.join (cl.target.map (fun c => "- " ++ c.school ++ "\n"))
    ++ "\nLikely Schools:\n"
    ++ String.join (cl.likely.map (fun c => "- " ++ c.school ++ "\n"))

/-- Observable outcome of one POST `/api/strategies/generate` call. -/
structure StrategiesResult where
  response : HandlerResult Strategies
  aiCalled : Bool
deriving Repr, DecidableEq

/-- POST `/api/strategies/generate`: 404 before any AI call when the
profile or its `collegeList` is absent; otherwise call the AI
collaborator (outcome `aiStrategies`, `.error` modelling a thrown call
or `JSON.parse` failure caught as a 500) and answer with the parsed
strategies. -/
def strategiesEndpoint (profile? : Option Profile)
    (aiStrategies : Except Unit Strategies) : StrategiesResult :=
  match profile? with
  | none => ⟨.error 404, false⟩
  | some profile =>
      match profile.collegeList with
      | none => ⟨.error 404, false⟩
      | some _ =>
          match aiStrategies with
          | .error _ => ⟨.error 500, true⟩
          | .ok strategies => ⟨.ok strategies, true⟩

/-! ## AI-response parsing in `generateWhyReasons` -/

/-- A JSON value, as produced by a successful `JSON.parse`. -/
inductive Json where
  | null
  | bool (b : Bool)
  | num (n : Int)
  | str (s : String)
  | arr (elems : List Json)
  | obj (fields : List (String × Json))

/-- JS truthiness of a JSON value (`NaN` cannot arise from `JSON.parse`). -/
def Json.truthy : Json → Bool
  | .null => false
  | .bool b => b
  | .num n => n != 0
  | .str s => s != ""
  | .arr _ => true
  | .obj _ => true

/-- JS property read `j.k` on a parsed JSON value: a field of an object,
`undefined` (`none`) on a missing field or on a primitive (boxing). -/
def Json.getField (j : Json) (k : String) : Option Json :=
  match j with
  | .obj fields => (fields.find? (fun kv => kv.1 = k)).map (fun kv => kv.2)
  | _ => none

/-- The result-extraction step of `generateWhyReasons`:
`JSON.parse(aiData.data.outputs.reasoning).reasons || []`.
`parseResult` models `JSON.parse` of the `reasoning` output string:
`none` when the parse throws.  A parse that yields `null` makes the
`.reasons` access throw; both throws propagate (`.error`).  Otherwise
the expression yields the `reasons` field when truthy, else `[]`. -/
def whyParseReasons (parseResult : Option Json) : Except Unit Json :=
  match parseResult with
  | none => .error ()
  | some .null => .error ()
  | some j =>
      .ok (match j.getField "reasons" with
           | some v => if v.truthy then v else .arr []
           | none => .arr [])

/-! ## Line-structure view of the deterministic rendering -/

/-- Join a list of lines, terminating each with a newline. -/
def joinLines : List String → String
  | [] => ""
  | l :: ls => l ++ ("\n" ++ joinLines ls)

/-- The lines the deterministic rendering is actually made of (used to
characterise `renderProfile` line by line). -/
def renderLines (p : Profile) : List String :=
  ["--- Student Profile ---"]
    ++ (if p.questionnaire.isEmpty then []
        else "Questionnaire Answers:"
          :: p.questionnaire.map (fun i => "- " ++ i.question ++ ": " ++ i.answer))
    ++ (if p.discovered.interests.isEmpty then []
        else ["Discovered Interests: "
                ++ String.intercalate ", " p.discovered.interests])
    ++ (if p.discovered.strengths.isEmpty then []
        else ["Discovered Strengths: "
                ++ String.intercalate ", " p.discovered.strengths])

/-- Written from the words of the spec, for comparison with
`renderProfile`: a header line, then one line per questionnaire answer
(`question: answer`), then a line of comma-joined discovered interests
(only if non-empty), then a line of comma-joined discovered strengths
(only if non-empty), leading and trailing whitespace trimmed. -/
def renderProfile_specText (p : Profile) : String :=
  jsTrim (joinLines (
    ["--- Student Profile ---"]
      ++ p.questionnaire.map (fun i => i.question ++ ": " ++ i.answer)
      ++ (if p.discovered.interests.isEmpty then []
          else [String.intercalate ", " p.discovered.interests])
      ++ (if p.discovered.strengths.isEmpty then []
          else [String.intercalate ", " p.discovered.strengths])))

/-! ## Concrete fixtures (used by the closed witness theorems) -/

/-- Fixture: a college with stored non-empty reasons. -/
def exCollege : College := ⟨"MIT", "Reach", ["r1"]⟩

/-- Fixture: a college list holding `exCollege` in the reach bucket. -/
def exList : CollegeList := ⟨[exCollege], [], []⟩

/-- Fixture: a profile holding `exList`. -/
def exProfile : Profile := ⟨"u@x", "U", [], ⟨[], [], []⟩, some exList, some "sum"⟩

/-- Fixture: a college with an empty reasons list. -/
def exCollegeNR : College := ⟨"MIT", "Reach", []⟩

/-- Fixture: a college list holding `exCollegeNR` in the reach bucket. -/
def exListNR : CollegeList := ⟨[exCollegeNR], [], []⟩

/-- Fixture: a profile holding `exListNR`. -/
def exProfileNR : Profile := ⟨"u@x", "U", [], ⟨[], [], []⟩, some exListNR, some "sum"⟩

/-- Fixture: a profile whose college list holds no school at all. -/
def exProfileEmpty : Profile :=
  ⟨"u@x", "U", [], ⟨[], [], []⟩, some ⟨[], [], []⟩, some "sum"⟩

/-! ## Helper lemmas -/

theorem mem_formatAnswers_category {cat : String} {qs : List Question}
    {ans : List (String × String)} {a : Answer}
    (ha : a ∈ formatAnswers cat qs ans) : a.category = cat := by
  simp only [formatAnswers, List.mem_map] at ha
  obtain ⟨qa, _, rfl⟩ := ha
  rfl

theorem filter_ne_formatAnswers (cat : String) (qs : List Question)
    (ans : List (String × String)) :
    (formatAnswers cat qs ans).filter (fun a => a.category ≠ cat) = [] := by
  rw [List.filter_eq_nil_iff]
  intro a ha
  simp [mem_formatAnswers_category ha]

theorem filter_eq_formatAnswers (cat : String) (qs : List Question)
    (ans : List (String × String)) :
    (formatAnswers cat qs ans).filter (fun a => a.category = cat)
      = formatAnswers cat qs ans := by
  rw [List.filter_eq_self]
  intro a ha
  simp [mem_formatAnswers_category ha]

theorem mergeQuestionnaire_idem (q : List Answer) (cat : String)
    (ans : List (String × String)) :
    mergeQuestionnaire (mergeQuestionnaire q cat ans) cat ans
      = mergeQuestionnaire q cat ans := by
  unfold mergeQuestionnaire
  cases h : catalogLookup cat with
  | none => rfl
  | some qs =>
      rw [List.filter_append, filter_ne_formatAnswers, List.append_nil,
        List.filter_filter]
      simp

theorem exists_not_dropWhile {p : Char → Bool} :
    ∀ {m : List Char}, (∃ c ∈ m, p c = false) →
      ∃ d ∈ m.dropWhile p, p d = false := by
  intro m
  induction m with
  | nil => rintro ⟨c, hc, _⟩; cases hc
  | cons a t ih =>
      rintro ⟨c, hc, hpc⟩
      by_cases hpa : p a = true
      · rw [List.dropWhile_cons_of_pos hpa]
        apply ih
        rcases List.mem_cons.mp hc with rfl | hct
        · rw [hpa] at hpc; cases hpc
        · exact ⟨c, hct, hpc⟩
      · rw [List.dropWhile_cons_of_neg hpa]
        exact ⟨a, List.mem_cons_self a t, by simpa using hpa⟩

theorem trimChars_ne_nil {l : List Char}
    (h : ∃ c ∈ l, c.isWhitespace = false) : trimChars l ≠ [] := by
  unfold trimChars
  intro hnil
  obtain ⟨c, hc, hw⟩ := h
  obtain ⟨d, hd, hdw⟩ :=
    exists_not_dropWhile (m := l.reverse) ⟨c, by simpa using hc, hw⟩
  obtain ⟨e, he, _⟩ :=
    exists_not_dropWhile
      (m := (l.reverse.dropWhile Char.isWhitespace).reverse)
      ⟨d, by simpa using hd, hdw⟩
  rw [hnil] at he
  cases he

theorem jsTrim_ne_empty {s : String}
    (h : ∃ c ∈ s.data, c.isWhitespace = false) : jsTrim s ≠ "" := by
  intro hEq
  have hdata : trimChars s.data = [] := congrArg String.data hEq
  exact trimChars_ne_nil h hdata

theorem find?_setFirstReasons {l : List College} {s : String} {c : College}
    (R : List Reason) (h : l.find? (fun x => x.school = s) = some c) :
    (setFirstReasons l s R).find? (fun x => x.school = s)
      = some { c with reasons := R } := by
  induction l with
  | nil => simp at h
  | cons a t ih =>
      by_cases ha : a.school = s
      · rw [List.find?_cons_of_pos _ (by simpa using ha)] at h
        injection h with h
        subst h
        unfold setFirstReasons
        rw [if_pos ha]
        exact List.find?_cons_of_pos _ (by simpa using ha)
      · rw [List.find?_cons_of_neg _ (by simpa using ha)] at h
        unfold setFirstReasons
        rw [if_neg ha, List.find?_cons_of_neg _ (by simpa using ha)]
        exact ih h

theorem setFirstReasons_decomp {l : List College} {s : String} {c : College}
    (R : List Reason) (h : l.find? (fun x => x.school = s) = some c) :
    ∃ pre post, l = pre ++ c :: post ∧ (∀ x ∈ pre, x.school ≠ s)
      ∧ setFirstReasons l s R = pre ++ { c with reasons := R } :: post := by
  induction l with
  | nil => simp at h
  | cons a t ih =>
      by_cases ha : a.school = s
      · rw [List.find?_cons_of_pos _ (by simpa using ha)] at h
        injection h with h
        subst h
        refine ⟨[], t, rfl, by simp, ?_⟩
        unfold setFirstReasons
        rw [if_pos ha]
        rfl
      · rw [List.find?_cons_of_neg _ (by simpa using ha)] at h
        obtain ⟨pre, post, hl, hpre, hset⟩ := ih h
        refine ⟨a :: pre, post, by rw [List.cons_append, ← hl], ?_, ?_⟩
        · intro x hx
          rcases List.mem_cons.mp hx with rfl | hxp
          · exact ha
          · exact hpre x hxp
        · unfold setFirstReasons
          rw [if_neg ha, hset, List.cons_append]

theorem findCollege_cases {cl : CollegeList} {s cat : String} {c : College}
    (h : findCollege cl s = some (cat, c)) :
    (cat = "reach" ∧ cl.reach.find? (fun x => x.school = s) = some c)
    ∨ (cat = "target" ∧ cl.reach.find? (fun x => x.school = s) = none
        ∧ cl.target.find? (fun x => x.school = s) = some c)
    ∨ (cat = "likely" ∧ cl.reach.find? (fun x => x.school = s) = none
        ∧ cl.target.find? (fun x => x.school = s) = none
        ∧ cl.likely.find? (fun x => x.school = s) = some c) := by
  unfold findCollege at h
  cases hre : cl.reach.find? (fun x => x.school = s) with
  | some c0 =>
      simp only [hre] at h
      injection h with h
      obtain ⟨h1, h2⟩ := Prod.mk.injEq .. ▸ h
      exact Or.inl ⟨h1.symm, by rw [h2]⟩
  | none =>
      simp only [hre] at h
      cases hta : cl.target.find? (fun x => x.school = s) with
      | some c0 =>
          simp only [hta] at h
          injection h with h
          obtain ⟨h1, h2⟩ := Prod.mk.injEq .. ▸ h
          exact Or.inr (Or.inl ⟨h1.symm, rfl, by rw [h2]⟩)
      | none =>
          simp only [hta] at h
          cases hli : cl.likely.find? (fun x => x.school = s) with
          | some c0 =>
              simp only [hli] at h
              injection h with h
              obtain ⟨h1, h2⟩ := Prod.mk.injEq .. ▸ h
              exact Or.inr (Or.inr ⟨h1.symm, rfl, rfl, by rw [h2]⟩)
          | none =>
              simp only [hli] at h
              exact Option.noConfusion h

theorem findCollege_bucketOf {cl : CollegeList} {s cat : String} {c : College}
    (h : findCollege cl s = some (cat, c)) :
    (bucketOf cl cat).find? (fun x => x.school = s) = some c := by
  rcases findCollege_cases h with ⟨rfl, h1⟩ | ⟨rfl, _, h1⟩ | ⟨rfl, _, _, h1⟩ <;>
    simpa [bucketOf] using h1

theorem findCollege_after_targeted {cl : CollegeList} {s cat : String}
    {c : College} (R : List Reason) (h : findCollege cl s = some (cat, c)) :
    findCollege (setBucket cl cat (setFirstReasons (bucketOf cl cat) s R)) s
      = some (cat, { c with reasons := R }) := by
  rcases findCollege_cases h with ⟨rfl, h1⟩ | ⟨rfl, h0, h1⟩ | ⟨rfl, h0a, h0b, h1⟩
  · unfold findCollege
    simp [setBucket, bucketOf, find?_setFirstReasons R h1]
  · unfold findCollege
    simp [setBucket, bucketOf, h0, find?_setFirstReasons R h1]
  · unfold findCollege
    simp [setBucket, bucketOf, h0a, h0b, find?_setFirstReasons R h1]

theorem joinLines_append (a b : List String) :
    joinLines (a ++ b) = joinLines a ++ joinLines b := by
  induction a with
  | nil => simp [joinLines, String.empty_append]
  | cons x t ih => simp [joinLines, ih, String.append_assoc]

theorem join_cons (a : String) (l : List String) :
    String.join (a :: l) = a ++ String.join l := by
  apply String.ext
  simp [String.join_eq, String.data_append]

theorem joinLines_map_join (f : Answer → String) (l : List Answer) :
    joinLines (l.map f) = String.join (l.map (fun x => f x ++ "\n")) := by
  induction l with
  | nil => rfl
  | cons x t ih => simp [joinLines, join_cons, ih, String.append_assoc]

/-! ## Claim theorems -/

/-- C3: merging the same `(category, answers)` payload twice in
succession yields a questionnaire whose subset of records tagged with
that category is identical after the first and the second merge —
the merge removes every existing record of the target category before
appending the freshly formatted records, so no duplicates accumulate. -/
theorem merge_per_category_idempotent (q : List Answer) (cat : String)
    (ans : List (String × String)) :
    (mergeQuestionnaire (mergeQuestionnaire q cat ans) cat ans).filter
        (fun a => a.category = cat)
      = (mergeQuestionnaire q cat ans).filter (fun a => a.category = cat) := by
  rw [mergeQuestionnaire_idem]

/-- C4: merging a known category with an empty answers object leaves zero
records of that category (the prior answers are deleted, nothing replaces
them), and the result is exactly the untouched records of the other
categories, byte-identical and in their original relative order (with no
new records after them). -/
theorem merge_empty_answers_deletes (q : List Answer) (cat : String)
    (qs : List Question) (h : catalogLookup cat = some qs) :
    mergeQuestionnaire q cat [] = q.filter (fun a => a.category ≠ cat)
    ∧ (mergeQuestionnaire q cat []).filter (fun a => a.category = cat) = [] := by
  have h1 : mergeQuestionnaire q cat [] = q.filter (fun a => a.category ≠ cat) := by
    unfold mergeQuestionnaire
    rw [h]
    simp [formatAnswers]
  refine ⟨h1, ?_⟩
  rw [h1, List.filter_filter]
  simp

/-- Witness for C4 at a concrete profile: one stored academics answer is
deleted by an empty academics merge. -/
theorem merge_empty_answers_deletes_witness :
    mergeQuestionnaire [⟨"a1", "academics", "What is your GPA (on a 4.0 scale)?",
        "3.8 - 4.0"⟩] "academics" []
      = ([⟨"a1", "academics", "What is your GPA (on a 4.0 scale)?",
          "3.8 - 4.0"⟩] : List Answer).filter (fun a => a.category ≠ "academics")
    ∧ (mergeQuestionnaire [⟨"a1", "academics", "What is your GPA (on a 4.0 scale)?",
        "3.8 - 4.0"⟩] "academics" []).filter
        (fun a => a.category = "academics") = [] :=
  merge_empty_answers_deletes _ "academics" _ rfl

/-- C10: a profile update whose questionnaire payload names a category
absent from the question catalog leaves the questionnaire entirely
unchanged, and the PUT operation still succeeds. -/
theorem unknown_category_update_noop (p : Profile) (cat : String)
    (ans : List (String × String))
    (rest : List (String × List (String × String)))
    (ai : Except Unit DifyOutputs) (h : catalogLookup cat = none) :
    ∃ p', putProfile (some p) ⟨some ((cat, ans) :: rest)⟩ ai = .ok p'
      ∧ p'.questionnaire = p.questionnaire := by
  have hm : mergeQuestionnaire p.questionnaire cat ans = p.questionnaire := by
    unfold mergeQuestionnaire
    rw [h]
  refine ⟨_, rfl, ?_⟩
  simp [putProfile, hm]

/-- Witness for C10: updating category `"bogus"` on a concrete profile
succeeds and leaves its questionnaire unchanged. -/
theorem unknown_category_update_noop_witness :
    ∃ p', putProfile
        (some ⟨"u@x", "U", [⟨"a1", "academics", "Q", "A"⟩], ⟨[], [], []⟩, none, none⟩)
        ⟨some [("bogus", [("z", "w")])]⟩ (.error ()) = .ok p'
      ∧ p'.questionnaire = [⟨"a1", "academics", "Q", "A"⟩] :=
  unknown_category_update_noop _ "bogus" _ _ _ rfl

/-- C8: generating strategies for a profile that has no `collegeList`
fails with a 404 and makes no AI-collaborator call. -/
theorem strategies_require_college_list (p : Profile)
    (ai : Except Unit Strategies) (h : p.collegeList = none) :
    strategiesEndpoint (some p) ai = ⟨.error 404, false⟩ := by
  simp [strategiesEndpoint, h]

/-- Witness for C8 at a concrete profile with no college list. -/
theorem strategies_require_college_list_witness :
    strategiesEndpoint (some ⟨"u@x", "U", [], ⟨[], [], []⟩, none, some "s"⟩)
        (.ok ⟨[], [], []⟩) = ⟨.error 404, false⟩ :=
  strategies_require_college_list _ _ rfl

/-- C5: when the AI-collaborator call fails, `generateProfileSummary`
returns the deterministic plain-text rendering as its fallback, and that
rendering is a non-empty string for every profile. -/
theorem summary_failure_fallback (p : Profile) :
    generateProfileSummary p (.error ()) = some (renderProfile p)
    ∧ renderProfile p ≠ "" := by
  refine ⟨rfl, ?_⟩
  unfold renderProfile
  apply jsTrim_ne_empty
  refine ⟨'-', ?_, by decide⟩
  simp only [String.data_append]
  apply List.mem_append_left
  apply List.mem_append_left
  apply List.mem_append_left
  decide

/-- C2 counterexample: the categorisation is not case-insensitive.  The
tag `"REACH"` is equal to `"Reach"` up to case, yet the record is dropped
from every bucket, and the code result differs from the case-insensitive
bucketing the spec describes. -/
theorem categorize_case_counterexample :
    (categorize [⟨"X", "REACH"⟩]).reach = []
    ∧ lowerTag "REACH" = lowerTag "Reach"
    ∧ categorize [⟨"X", "REACH"⟩] ≠ categorize_specText [⟨"X", "REACH"⟩] := by
  refine ⟨rfl, by decide, by decide⟩

/-- C2 amended: the buckets are formed by exact tag match — `"Reach"` or
`"reach"` into reach, `"Target"` or `"target"` into target, `"Safety"` or
`"likely"` into likely — every other tag (including other casings) being
dropped silently; in particular a list carrying tags `"Reach"`,
`"reach"`, `"Safety"`, `"target"` buckets into reach with 2 items, target
with 1, likely with 1. -/
theorem categorize_exact_tags (l : List RawCollege) (s1 s2 s3 s4 : String) :
    ((categorize l).reach
        = (l.filter (fun c => c.category = "Reach" ∨ c.category = "reach")).map
            (fun c => ⟨c.school, c.category, ([] : List Reason)⟩)
      ∧ (categorize l).target
        = (l.filter (fun c => c.category = "Target" ∨ c.category = "target")).map
            (fun c => ⟨c.school, c.category, ([] : List Reason)⟩)
      ∧ (categorize l).likely
        = (l.filter (fun c => c.category = "Safety" ∨ c.category = "likely")).map
            (fun c => ⟨c.school, c.category, ([] : List Reason)⟩))
    ∧ ((categorize [⟨s1, "Reach"⟩, ⟨s2, "reach"⟩, ⟨s3, "Safety"⟩,
          ⟨s4, "target"⟩]).reach.length = 2
      ∧ (categorize [⟨s1, "Reach"⟩, ⟨s2, "reach"⟩, ⟨s3, "Safety"⟩,
          ⟨s4, "target"⟩]).target.length = 1
      ∧ (categorize [⟨s1, "Reach"⟩, ⟨s2, "reach"⟩, ⟨s3, "Safety"⟩,
          ⟨s4, "target"⟩]).likely.length = 1) := by
  constructor
  · refine ⟨?_, ?_, ?_⟩ <;>
      · simp only [categorize, List.filter_map]
        rfl
  · refine ⟨?_, ?_, ?_⟩ <;> simp [categorize]

/-- C9 counterexample: when the parsed reasoning object lacks the
expected `reasons` list, `generateWhyReasons` does not error — it
silently returns the default empty list. -/
theorem whyParse_default_counterexample :
    whyParseReasons (some (Json.obj [])) = .ok (.arr [])
    ∧ whyParseReasons (some (Json.obj [])) ≠ .error () := by
  refine ⟨rfl, ?_⟩
  intro h
  exact Except.noConfusion h

/-- C9 amended: a reasoning string that fails `JSON.parse` (or parses to
`null`, making the field access throw) produces an error that propagates,
but a parsed reasoning object lacking the `reasons` list yields the
silent default `[]`; similarly the summary call site yields `undefined`,
not an error, when the `summary` output is missing. -/
theorem whyParse_amended :
    whyParseReasons none = .error ()
    ∧ whyParseReasons (some .null) = .error ()
    ∧ (∀ fields, fields.find? (fun kv => kv.1 = "reasons") = none →
        whyParseReasons (some (.obj fields)) = .ok (.arr []))
    ∧ (∀ p outputs, difyGet outputs "summary" = none →
        generateProfileSummary p (.ok outputs) = none) := by
  refine ⟨rfl, rfl, ?_, ?_⟩
  · intro fields h
    simp [whyParseReasons, Json.getField, h]
  · intro p outputs h
    simp [generateProfileSummary, h]

/-- Witness for C9 amended: a reasoning object with an unrelated field
yields the default empty list, and a summary response with an unrelated
output yields `undefined`. -/
theorem whyParse_amended_witness :
    whyParseReasons (some (.obj [("score", .num 5)])) = .ok (.arr [])
    ∧ generateProfileSummary ⟨"u@x", "U", [], ⟨[], [], []⟩, none, none⟩
        (.ok [("other", "v")]) = none :=
  ⟨whyParse_amended.2.2.1 _ rfl, whyParse_amended.2.2.2 _ _ rfl⟩

/-- C1: when the fixed-order search (reach, then target, then likely)
finds a first record matching the school name, a non-empty stored
`reasons` list is returned as-is with no AI call; and after a first call
(whose generated reasons are non-empty) the second call for the same
school makes no AI call and returns the same reasons. -/
theorem whyReasons_memoized (p : Profile) (cl : CollegeList) (s cat : String)
    (c : College) (R : List Reason) (ai2 : Except Unit (List Reason))
    (hcl : p.collegeList = some cl)
    (hfind : findCollege cl s = some (cat, c))
    (hR : R ≠ []) :
    (c.reasons ≠ [] →
      whyEndpoint (some p) s (.ok R) = ⟨.ok c.reasons, false, .nothing⟩)
    ∧ (whyEndpoint (some (applyPersist p
          (whyEndpoint (some p) s (.ok R)).persist)) s ai2).aiCalled = false
    ∧ (whyEndpoint (some (applyPersist p
          (whyEndpoint (some p) s (.ok R)).persist)) s ai2).response
        = (whyEndpoint (some p) s (.ok R)).response := by
  constructor
  · intro hne
    simp [whyEndpoint, hcl, hfind, List.isEmpty_eq_false.mpr hne]
  · by_cases hc : c.reasons.isEmpty
    · have h1 : whyEndpoint (some p) s (.ok R)
          = ⟨.ok R, true, .targetedSet cat s R⟩ := by
        simp [whyEndpoint, hcl, hfind, hc]
      have h2 : applyPersist p (WhyPersist.targetedSet cat s R)
          = { p with collegeList := some (setBucket cl cat
              (setFirstReasons (bucketOf cl cat) s R)) } := by
        simp [applyPersist, hcl]
      have h3 := findCollege_after_targeted R hfind
      rw [h1]
      have h4 : (⟨.ok R, true, .targetedSet cat s R⟩ : WhyResult).persist
          = .targetedSet cat s R := rfl
      rw [h4, h2]
      constructor <;> simp [whyEndpoint, h3, List.isEmpty_eq_false.mpr hR]
    · have h1 : whyEndpoint (some p) s (.ok R)
          = ⟨.ok c.reasons, false, .nothing⟩ := by
        simp [whyEndpoint, hcl, hfind, hc]
      rw [h1]
      have h4 : (⟨.ok c.reasons, false, .nothing⟩ : WhyResult).persist
          = .nothing := rfl
      rw [h4]
      constructor <;> simp [applyPersist, whyEndpoint, hcl, hfind, hc]

/-- Witness for C1 at a concrete profile whose reach bucket stores
non-empty reasons for MIT. -/
theorem whyReasons_memoized_witness :
    whyEndpoint (some exProfile) "MIT" (.ok ["x"])
        = ⟨.ok exCollege.reasons, false, .nothing⟩
    ∧ (whyEndpoint (some (applyPersist exProfile
          (whyEndpoint (some exProfile) "MIT" (.ok ["x"])).persist))
        "MIT" (.ok ["y"])).aiCalled = false
    ∧ (whyEndpoint (some (applyPersist exProfile
          (whyEndpoint (some exProfile) "MIT" (.ok ["x"])).persist))
        "MIT" (.ok ["y"])).response
        = (whyEndpoint (some exProfile) "MIT" (.ok ["x"])).response :=
  ⟨(whyReasons_memoized exProfile exList "MIT" "reach" exCollege ["x"]
      (.ok ["y"]) rfl rfl (by decide)).1 (by decide),
   (whyReasons_memoized exProfile exList "MIT" "reach" exCollege ["x"]
      (.ok ["y"]) rfl rfl (by decide)).2⟩

/-- C7: when no stored record matches the school name, the generated
reasons are returned but nothing is persisted (the stored profile is
unchanged); when a match exists (and generation runs), the persistence
effect is a targeted-field update keyed by the school name that rewrites
only the reasons of the first matched record of its bucket — not a
whole-document overwrite. -/
theorem why_persistence (p : Profile) (s : String) (R : List Reason) :
    (p.collegeList.bind (fun cl => findCollege cl s) = none →
      whyEndpoint (some p) s (.ok R) = ⟨.ok R, true, .nothing⟩
      ∧ applyPersist p (whyEndpoint (some p) s (.ok R)).persist = p)
    ∧ (∀ cl cat c, p.collegeList = some cl →
        findCollege cl s = some (cat, c) → c.reasons = [] →
        (whyEndpoint (some p) s (.ok R)).persist = .targetedSet cat s R
        ∧ ∃ pre post,
            bucketOf cl cat = pre ++ c :: post
            ∧ (∀ x ∈ pre, x.school ≠ s)
            ∧ applyPersist p (.targetedSet cat s R)
              = { p with collegeList := some (setBucket cl cat (pre ++ { c with reasons := R } :: post)) }) := by
  constructor
  · intro hnone
    have h1 : whyEndpoint (some p) s (.ok R) = ⟨.ok R, true, .nothing⟩ := by
      simp [whyEndpoint, hnone]
    refine ⟨h1, ?_⟩
    rw [h1]
    rfl
  · intro cl cat c hcl hfind hcr
    have hEmpty : c.reasons.isEmpty = true := by simp [hcr]
    have h1 : (whyEndpoint (some p) s (.ok R)).persist
        = .targetedSet cat s R := by
      simp [whyEndpoint, hcl, hfind, hEmpty]
    refine ⟨h1, ?_⟩
    obtain ⟨pre, post, hb, hpre, hset⟩ :=
      setFirstReasons_decomp R (findCollege_bucketOf hfind)
    exact ⟨pre, post, hb, hpre, by simp [applyPersist, hcl, hset]⟩

/-- Witness for C7: a concrete no-match call persists nothing, and a
concrete matched call with empty stored reasons requests exactly the
targeted update of that record. -/
theorem why_persistence_witness :
    (whyEndpoint (some exProfileEmpty) "MIT" (.ok ["r"])
        = ⟨.ok ["r"], true, .nothing⟩
      ∧ applyPersist exProfileEmpty
          (whyEndpoint (some exProfileEmpty) "MIT" (.ok ["r"])).persist
        = exProfileEmpty)
    ∧ ((whyEndpoint (some exProfileNR) "MIT" (.ok ["r"])).persist
        = .targetedSet "reach" "MIT" ["r"]
      ∧ ∃ pre post,
          bucketOf exListNR "reach" = pre ++ exCollegeNR :: post
          ∧ (∀ x ∈ pre, x.school ≠ "MIT")
          ∧ applyPersist exProfileNR (.targetedSet "reach" "MIT" ["r"])
            = { exProfileNR with collegeList := some (setBucket exListNR "reach" (pre ++ { exCollegeNR with reasons := ["r"] } :: post)) }) :=
  ⟨(why_persistence exProfileEmpty "MIT" ["r"]).1 rfl,
   (why_persistence exProfileNR "MIT" ["r"]).2 exListNR "reach" exCollegeNR
     rfl rfl rfl⟩

/-- C6 counterexample: the rendering is not just a header line followed
by bare `question: answer` lines — a profile with one answer renders
with an extra `Questionnaire Answers:` subheader line and a `- ` marker
on the answer line, so it differs from the layout in the words of the
spec. -/
theorem renderProfile_counterexample :
    renderProfile
        ⟨"u@x", "U", [⟨"a1", "academics", "Q", "A"⟩], ⟨[], [], []⟩, none, none⟩
      ≠ renderProfile_specText
        ⟨"u@x", "U", [⟨"a1", "academics", "Q", "A"⟩], ⟨[], [], []⟩, none, none⟩ := by
  decide

/-- C6 amended: the rendering consists of exactly a
`--- Student Profile ---` header line; then, only when the questionnaire
is non-empty, a `Questionnaire Answers:` subheader line followed by one
line per answer in the form `- question: answer`; then a
`Discovered Interests: ` line of comma-joined interests only if that set
is non-empty; then a `Discovered Strengths: ` line of comma-joined
strengths only if that set is non-empty — with leading and trailing
whitespace trimmed. -/
theorem renderProfile_line_structure (p : Profile) :
    renderProfile p = jsTrim (joinLines (renderLines p)) := by
  have hhead : ("--- Student Profile ---" ++ "\n" : String)
      = "--- Student Profile ---\n" := rfl
  have hsub : ("Questionnaire Answers:" ++ "\n" : String)
      = "Questionnaire Answers:\n" := rfl
  unfold renderProfile renderLines
  congr 1
  by_cases h1 : p.questionnaire.isEmpty <;>
  by_cases h2 : p.discovered.interests.isEmpty <;>
  by_cases h3 : p.discovered.strengths.isEmpty <;>
    (simp [h1, h2, h3, joinLines_append, joinLines, joinLines_map_join,
       String.append_assoc, String.append_empty, String.empty_append];
     try simp only [← hhead, ← hsub, String.append_assoc])

end MyPath
